import Mathlib

/-!
Shallow embedding of the wishlist server (src/server.py): the metadata
extractor (fetch_metadata, lines 127-181) and the item lifecycle
controller (add/delete/mark/unmark/archive/restore endpoints,
lines 297-451), together with theorems settling the specification
claims about them.
-/

namespace Wishlist

/-- A JSON value, modelling what Python json.loads returns for a
parsed ld+json block.  Objects are association lists; parsed dicts have
unique keys. -/
inductive Json where
  | null : Json
  | bool (b : Bool) : Json
  | num (n : Int) : Json
  | str (s : String) : Json
  | arr (xs : List Json) : Json
  | obj (fs : List (String × Json)) : Json

/-- Python truthiness of a JSON value (`if price:`). -/
def Json.truthy : Json → Bool
  | .null => false
  | .bool b => b
  | .num n => n != 0
  | .str s => s != ""
  | .arr xs => !xs.isEmpty
  | .obj fs => !fs.isEmpty

/-- Truthiness of the `price` variable, which is None or a JSON value. -/
def truthyOpt : Option Json → Bool
  | none => false
  | some j => j.truthy

/-- Dict lookup `d[k]` / `d.get(k)` on a parsed JSON object
(keys unique after json.loads). -/
def lookupField (fs : List (String × Json)) (k : String) : Option Json :=
  (fs.find? (fun f => f.1 == k)).map (fun f => f.2)

/-- A meta-tag-like element of the parsed HTML document.  `content = none`
models the content attribute being absent. -/
structure MetaTag where
  property : Option String := none
  itemprop : Option String := none
  content : Option String := none
deriving Repr, DecidableEq

/-- The parsed HTML document, as the extractor queries it.
`titleTag = some none` models a title element whose `.string` is None
(e.g. an empty title element); `scripts` holds the
`script type="application/ld+json"` blocks in document order, `none`
standing for a block whose text is absent or fails to parse as JSON. -/
structure Doc where
  metas : List MetaTag := []
  titleTag : Option (Option String) := none
  scripts : List (Option Json) := []

/-- `soup.find("meta", property=p)`: first meta element with that property. -/
def findMetaProp (doc : Doc) (p : String) : Option MetaTag :=
  doc.metas.find? (fun t => t.property == some p)

/-- `soup.find("meta", itemprop=p)`: first meta element with that itemprop. -/
def findMetaItemprop (doc : Doc) (p : String) : Option MetaTag :=
  doc.metas.find? (fun t => t.itemprop == some p)

/-- Python exceptions the extractor can raise (server.py lines 138-142):
`keyError` models `tag["content"]` on a tag without a content attribute,
`attrError` models `None.strip()` on a title element whose string is None. -/
inductive ExtractErr where
  | keyError : ExtractErr
  | attrError : ExtractErr
deriving Repr, DecidableEq

/-- The `og(name)` helper (lines 138-140):
`tag["content"] if tag else None`; raises KeyError when the tag exists
but has no content attribute. -/
def og (doc : Doc) (name : String) : Except ExtractErr (Option String) :=
  match findMetaProp doc ("og:" ++ name) with
  | some t =>
    match t.content with
    | some c => .ok (some c)
    | none => .error .keyError
  | none => .ok none

/-- `soup.title.string.strip() if soup.title else None` (line 142);
raises AttributeError when the title element exists but its string is
None. -/
def plainTitle (doc : Doc) : Except ExtractErr (Option String) :=
  match doc.titleTag with
  | none => .ok none
  | some none => .error .attrError
  | some (some s) => .ok (some s.trim)

/-- `title = og("title") or (soup.title.string.strip() if soup.title else None)`
(line 142); an empty og content is falsy, so it falls back. -/
def extractTitle (doc : Doc) : Except ExtractErr (Option String) :=
  match og doc "title" with
  | .error e => .error e
  | .ok (some c) => if c == "" then plainTitle doc else .ok (some c)
  | .ok none => plainTitle doc

/-- `description = og("description")` (line 143). -/
def extractDescription (doc : Doc) : Except ExtractErr (Option String) :=
  og doc "description"

/-- `image = og("image")` (line 144). -/
def extractImage (doc : Doc) : Except ExtractErr (Option String) :=
  og doc "image"

/-- Python substring test `"offers" in s` for a string candidate. -/
def strContainsOffers (s : String) : Bool :=
  (s.splitOn "offers").length > 1

/-- `for obj in objects` when `objects = data["@graph"]` is not a list:
iterating a dict yields its keys, iterating a string yields its
characters, iterating any other value raises TypeError. -/
def graphIter : Json → Except Unit (List Json)
  | .arr xs => .ok xs
  | .obj fs => .ok (fs.map (fun f => Json.str f.1))
  | .str s => .ok (s.data.map (fun c => Json.str (String.mk [c])))
  | _ => .error ()

/-- The inner candidate loop of the JSON-LD scan (lines 169-176),
threading the mutable `price` variable.  Returns the price value
together with a flag recording whether an exception was raised inside
the loop (IndexError on `offers[0]` for an empty list, AttributeError
on `.get` of a non-dict, TypeError from `in` / indexing on other
shapes); assignments made before the exception persist. -/
def scanCandidates (price : Option Json) : List Json → Option Json × Bool
  | [] => (price, false)
  | c :: rest =>
    match c with
    | .obj fs =>
      match lookupField fs "offers" with
      | none => scanCandidates price rest
      | some (.arr []) => (price, true)
      | some (.arr (.obj g :: _)) =>
        let p := lookupField g "price"
        if truthyOpt p then (p, false) else scanCandidates p rest
      | some (.arr (_ :: _)) => (price, true)
      | some (.obj g) =>
        let p := lookupField g "price"
        if truthyOpt p then (p, false) else scanCandidates p rest
      | some _ => if truthyOpt price then (price, false) else scanCandidates price rest
    | .str s => if strContainsOffers s then (price, true) else scanCandidates price rest
    | .arr xs =>
      if xs.any (fun x => match x with | .str s => s == "offers" | _ => false)
      then (price, true) else scanCandidates price rest
    | _ => (price, true)

/-- One parsed block of the JSON-LD scan (lines 161-176): for a dict,
take the `@graph` value as the candidate list when present, else the
dict itself as sole candidate, and run the candidate loop; a non-dict
value does nothing.  The flag records a raised exception. -/
def blockStep (price : Option Json) (data : Json) : Option Json × Bool :=
  match data with
  | .obj fs =>
    match lookupField fs "@graph" with
    | some g =>
      match graphIter g with
      | .ok objs => scanCandidates price objs
      | .error _ => (price, true)
    | none => scanCandidates price [.obj fs]
  | _ => (price, false)

/-- The outer block loop of the JSON-LD scan (lines 159-179): an
unparseable block is skipped (`except: continue`, which also skips the
trailing `if price: break` check); after a block that raised no
exception, a truthy price stops the scan. -/
def scanBlocks (price : Option Json) : List (Option Json) → Option Json
  | [] => price
  | b :: rest =>
    match b with
    | none => scanBlocks price rest
    | some data =>
      let r := blockStep price data
      if r.2 then scanBlocks r.1 rest
      else if truthyOpt r.1 then r.1 else scanBlocks r.1 rest

/-- The meta-tag price chain (lines 150-152):
`find(product:price:amount) or find(og:price:amount) or find(itemprop=price)`.
A found bs4 Tag is always truthy, so the chain takes the first tag that
exists. -/
def price_tag (doc : Doc) : Option MetaTag :=
  match findMetaProp doc "product:price:amount" with
  | some t => some t
  | none =>
    match findMetaProp doc "og:price:amount" with
    | some t => some t
    | none => findMetaItemprop doc "price"

/-- Tier-1 price (lines 154-155):
`if price_tag and price_tag.get("content"): price = price_tag["content"]`. -/
def tier1Price (doc : Doc) : Option Json :=
  match price_tag doc with
  | some t =>
    match t.content with
    | some c => if c == "" then none else some (.str c)
    | none => none
  | none => none

/-- Full price resolution (lines 147-179): tier-1 meta tags, then the
JSON-LD scan when the price is still falsy. -/
def extractPrice (doc : Doc) : Option Json :=
  let p := tier1Price doc
  if truthyOpt p then p else scanBlocks p doc.scripts

/-- The metadata quadruple fetch_metadata returns. -/
structure Meta where
  title : Option String := none
  description : Option String := none
  image : Option String := none
  price : Option Json := none

/-- The extraction part of fetch_metadata (lines 136-181), evaluated in
source order; a Python exception in the title/description/image helpers
propagates. -/
def extract (doc : Doc) : Except ExtractErr Meta :=
  match extractTitle doc with
  | .error e => .error e
  | .ok t =>
    match extractDescription doc with
    | .error e => .error e
    | .ok d =>
      match extractImage doc with
      | .error e => .error e
      | .ok i => .ok ⟨t, d, i, extractPrice doc⟩

/-- fetch_metadata on a failed request (lines 129-134): the exception is
logged and swallowed and `(None, None, None, None)` is returned. -/
def fetchFailureMeta : Meta := ⟨none, none, none, none⟩

/-- A row of the users table. -/
structure User where
  id : Nat
  username : String
  external_link : Option String := none
deriving Repr, DecidableEq

/-- A row of the items table. -/
structure Item where
  id : Nat
  userId : Nat
  url : String
  title : Option String := none
  description : Option String := none
  image : Option String := none
  price : Option Json := none
  source : String := ""
  added_date : String := ""
  purchased : Bool := false
  archived : Bool := false

/-- The database: rows listed in rowid (insertion) order, which is the
order an unordered SELECT returns them, plus the autoincrement
counters. -/
structure DB where
  users : List User := []
  items : List Item := []
  nextUserId : Nat := 1
  nextItemId : Nat := 1

/-- `SELECT id FROM users WHERE username = ?` + fetchone (line 268). -/
def findUser (db : DB) (username : String) : Option User :=
  db.users.find? (fun u => u.username == username)

/-- `INSERT INTO users (username) VALUES (?)` (line 277): appends a row
with the next autoincrement id and returns that id. -/
def createUser (db : DB) (username : String) : Nat × DB :=
  (db.nextUserId,
   { db with
       users := db.users ++ [{ id := db.nextUserId, username := username }],
       nextUserId := db.nextUserId + 1 })

/-- get_user_id(username, create) (lines 266-279): look the user up,
return the id when found, else create the user when `create` is set and
return None otherwise. -/
def get_user_id (db : DB) (username : String) (create : Bool) : Option Nat × DB :=
  match findUser db username with
  | some u => (some u.id, db)
  | none => if create then
              let r := createUser db username
              (some r.1, r.2)
            else (none, db)

/-- get_user_id with its default create=True, which always yields an id:
the form every non-admin endpoint except get_user_info uses. -/
def ensure_user (db : DB) (username : String) : Nat × DB :=
  match findUser db username with
  | some u => (u.id, db)
  | none => createUser db username

/-- The row filter `user_id = ? AND url = ?` shared by the item
endpoints. -/
def matchesKey (uid : Nat) (url : String) (i : Item) : Bool :=
  i.userId == uid && i.url == url

/-- `SELECT ... FROM items WHERE user_id = ? AND url = ?`: all matching
rows in rowid order. -/
def findItems (db : DB) (uid : Nat) (url : String) : List Item :=
  db.items.filter (matchesKey uid url)

/-- The JSON statuses add_item can answer with. -/
inductive AddStatus where
  | error : AddStatus
  | added (title : Option String) : AddStatus
  | exists_ : AddStatus
  | restored (title : Option String) : AddStatus
deriving Repr, DecidableEq

/-- Result of add_item: the response status, the database after the
request, and whether fetch_metadata was invoked. -/
structure AddResult where
  status : AddStatus
  db : DB
  fetched : Bool

/-- add_item (lines 325-369).  `meta` stands for what fetch_metadata
would return for this url and `netloc` for `urlparse(url).netloc`;
`fetched` records whether the code path calls fetch_metadata.  An empty
url is the falsy-url 400 branch.  The duplicate check uses fetchone, so
only the FIRST matching row is consulted; when it is archived that row
is restored in place and its title re-queried by id (the updated row is
present, so the re-query cannot miss). -/
def add_item (db : DB) (username url : String) (meta : Meta)
    (netloc : String → String) (today : String) : AddResult :=
  if url == "" then ⟨.error, db, false⟩
  else
    let uid := (ensure_user db username).1
    let db1 := (ensure_user db username).2
    match (findItems db1 uid url).head? with
    | some row =>
      if row.archived then
        let items2 := db1.items.map (fun i =>
          if i.id == row.id then
            { i with archived := false, purchased := false, added_date := today }
          else i)
        let db2 := { db1 with items := items2 }
        let title :=
          match db2.items.find? (fun i => i.id == row.id) with
          | some i => i.title
          | none => none
        ⟨.restored title, db2, false⟩
      else ⟨.exists_, db1, false⟩
    | none =>
      let newItem : Item :=
        { id := db1.nextItemId, userId := uid, url := url,
          title := meta.title, description := meta.description,
          image := meta.image, price := meta.price,
          source := netloc url, added_date := today,
          purchased := false, archived := false }
      ⟨.added meta.title,
       { db1 with items := db1.items ++ [newItem], nextItemId := db1.nextItemId + 1 },
       true⟩

/-- delete_item (lines 371-381): delete every row matching
(user_id, url); the response is always {"status": "deleted"}. -/
def delete_item (db : DB) (username url : String) : DB :=
  let uid := (ensure_user db username).1
  let db1 := (ensure_user db username).2
  { db1 with items := db1.items.filter (fun i => !matchesKey uid url i) }

/-- mark_purchased (lines 383-392): `UPDATE items SET purchased = 1
WHERE user_id = ? AND url = ?`; response always {"status": "marked"}. -/
def mark_purchased (db : DB) (username url : String) : DB :=
  let uid := (ensure_user db username).1
  let db1 := (ensure_user db username).2
  { db1 with items := db1.items.map (fun i =>
      if matchesKey uid url i then { i with purchased := true } else i) }

/-- unmark_purchased (lines 394-403): `UPDATE items SET purchased = 0
WHERE user_id = ? AND url = ?`; response always {"status": "unmarked"}. -/
def unmark_purchased (db : DB) (username url : String) : DB :=
  let uid := (ensure_user db username).1
  let db1 := (ensure_user db username).2
  { db1 with items := db1.items.map (fun i =>
      if matchesKey uid url i then { i with purchased := false } else i) }

/-- archive_purchased (lines 405-413): `UPDATE items SET archived = 1
WHERE user_id = ? AND purchased = 1 AND archived = 0`; the reported
count is the cursor rowcount, i.e. the number of rows the UPDATE
touched. -/
def archive_purchased (db : DB) (username : String) : Nat × DB :=
  let uid := (ensure_user db username).1
  let db1 := (ensure_user db username).2
  ((db1.items.filter (fun i => i.userId == uid && i.purchased && !i.archived)).length,
   { db1 with items := db1.items.map (fun i =>
       if i.userId == uid && i.purchased && !i.archived
       then { i with archived := true } else i) })

/-- The JSON statuses restore_item can answer with. -/
inductive RestoreStatus where
  | restored : RestoreStatus
  | exists_active : RestoreStatus
deriving Repr, DecidableEq

/-- restore_item (lines 415-430): refuse with exists_active when an
active row already matches (user_id, url); otherwise
`UPDATE items SET archived = 0, purchased = 0` on every matching row. -/
def restore_item (db : DB) (username url : String) : RestoreStatus × DB :=
  let uid := (ensure_user db username).1
  let db1 := (ensure_user db username).2
  if db1.items.any (fun i => matchesKey uid url i && !i.archived) then
    (.exists_active, db1)
  else
    (.restored,
     { db1 with items := db1.items.map (fun i =>
         if matchesKey uid url i then { i with archived := false, purchased := false } else i) })

/-- Insert an item into a list kept in descending id order. -/
def insertDesc (i : Item) : List Item → List Item
  | [] => [i]
  | x :: xs => if i.id ≤ x.id then x :: insertDesc i xs else i :: x :: xs

/-- `ORDER BY id DESC` over a result set. -/
def orderByIdDesc : List Item → List Item
  | [] => []
  | x :: xs => insertDesc x (orderByIdDesc xs)

/-- The columns the two listing endpoints select. -/
structure ItemView where
  url : String
  title : Option String
  description : Option String
  image : Option String
  price : Option Json
  source : String
  added : String
  purchased : Bool

/-- The SELECTed projection of an item row. -/
def itemView (i : Item) : ItemView :=
  ⟨i.url, i.title, i.description, i.image, i.price, i.source, i.added_date, i.purchased⟩

/-- get_wishlist (lines 297-309): active (archived = 0) items of the
user, newest first. -/
def get_wishlist (db : DB) (username : String) : List ItemView × DB :=
  let uid := (ensure_user db username).1
  let db1 := (ensure_user db username).2
  ((orderByIdDesc (db1.items.filter (fun i => i.userId == uid && !i.archived))).map itemView,
   db1)

/-- get_archive_items (lines 311-323): archived items of the user,
newest first. -/
def get_archive_items (db : DB) (username : String) : List ItemView × DB :=
  let uid := (ensure_user db username).1
  let db1 := (ensure_user db username).2
  ((orderByIdDesc (db1.items.filter (fun i => i.userId == uid && i.archived))).map itemView,
   db1)

/-- get_user_info (lines 432-440): the one username endpoint that looks
up with create=False and answers 404 (here: none) for an unknown user;
otherwise it returns the stored external_link.  The inner fetchone
cannot miss for an id get_user_id just returned. -/
def get_user_info (db : DB) (username : String) : Option (Option String) × DB :=
  match get_user_id db username false with
  | (none, db1) => (none, db1)
  | (some uid, db1) =>
    match db1.users.find? (fun u => u.id == uid) with
    | some u => (some u.external_link, db1)
    | none => (none, db1)

/-- set_external_link (lines 442-451): `UPDATE users SET external_link
= ? WHERE id = ?` after the creating user lookup. -/
def set_external_link (db : DB) (username : String) (link : Option String) : DB :=
  let uid := (ensure_user db username).1
  let db1 := (ensure_user db username).2
  { db1 with users := db1.users.map (fun u =>
      if u.id == uid then { u with external_link := link } else u) }

/-! Helper lemmas shared by the claim theorems. -/

theorem ensure_user_items (db : DB) (u : String) : (ensure_user db u).2.items = db.items := by
  unfold ensure_user
  cases h : findUser db u <;> simp [createUser]

theorem ensure_user_nextItemId (db : DB) (u : String) :
    (ensure_user db u).2.nextItemId = db.nextItemId := by
  unfold ensure_user
  cases h : findUser db u <;> simp [createUser]

theorem ensure_user_idem (db : DB) (u : String) :
    ensure_user (ensure_user db u).2 u = ensure_user db u := by
  unfold ensure_user
  cases h : findUser db u with
  | some v => simp [h]
  | none =>
    have h2 : List.find? (fun x => x.username == u) db.users = none := h
    simp [createUser, findUser, h2]

theorem ensure_user_has_username (db : DB) (u : String) :
    ((ensure_user db u).2.users.any (fun x => x.username == u)) = true := by
  unfold ensure_user
  cases h : findUser db u with
  | some v =>
    have hv := List.find?_some h
    have hmem := List.mem_of_find?_eq_some h
    simp only [List.any_eq_true]
    exact ⟨v, hmem, hv⟩
  | none =>
    simp [createUser]

/-- In a list of items with pairwise distinct ids that contains `r`, an
id-keyed update followed by an id-keyed find? returns the updated `r`. -/
theorem find?_map_update (r : Item) (f : Item → Item) (hf : (f r).id = r.id) :
    ∀ (l : List Item), r ∈ l → (l.map Item.id).Nodup →
    (l.map (fun i => if i.id == r.id then f i else i)).find? (fun i => i.id == r.id)
      = some (f r) := by
  intro l
  induction l with
  | nil => intro hr _; cases hr
  | cons x xs ih =>
    intro hr hnd
    rw [List.map_cons, List.nodup_cons] at hnd
    rw [List.map_cons]
    by_cases hx : x.id = r.id
    · have hxr : x = r := by
        rcases List.mem_cons.mp hr with h | h
        · exact h.symm
        · exact absurd (hx ▸ List.mem_map_of_mem Item.id h) hnd.1
      subst hxr
      rw [List.find?_cons_of_pos]
      · simp
      · simp [hf]
    · have hr2 : r ∈ xs := by
        rcases List.mem_cons.mp hr with h | h
        · exact absurd (h ▸ rfl) hx
        · exact h
      rw [List.find?_cons_of_neg]
      · exact ih hr2 hnd.2
      · simp [hx]

/-- C8: archive_purchased sets archived=true on exactly the user's rows
with purchased=true and archived=false, leaves every other row (and the
users table) unchanged, and reports the number of rows so changed. -/
theorem archive_purchased_correct (db : DB) (u : String) :
    (archive_purchased db u).2.users = (ensure_user db u).2.users ∧
    (∀ k : Nat, (archive_purchased db u).2.items[k]? =
       (db.items[k]?).map (fun i =>
         if i.userId == (ensure_user db u).1 && i.purchased && !i.archived
         then { i with archived := true } else i)) ∧
    (archive_purchased db u).1 =
      (db.items.filter (fun i =>
         i.userId == (ensure_user db u).1 && i.purchased && !i.archived)).length := by
  refine ⟨rfl, ?_, ?_⟩
  · intro k
    simp [archive_purchased, ensure_user_items, List.getElem?_map]
  · simp [archive_purchased, ensure_user_items]

/-- C9: mark_purchased (resp. unmark_purchased) sets purchased=true
(resp. false) on every row matching (user, url) — archived rows
included — and changes no other field of any row, no non-matching row,
and no user row beyond the creating lookup. -/
theorem mark_unmark_purchased_correct (db : DB) (u url : String) :
    (mark_purchased db u url).users = (ensure_user db u).2.users ∧
    (∀ k : Nat, (mark_purchased db u url).items[k]? =
       (db.items[k]?).map (fun i =>
         if matchesKey (ensure_user db u).1 url i
         then { i with purchased := true } else i)) ∧
    (unmark_purchased db u url).users = (ensure_user db u).2.users ∧
    (∀ k : Nat, (unmark_purchased db u url).items[k]? =
       (db.items[k]?).map (fun i =>
         if matchesKey (ensure_user db u).1 url i
         then { i with purchased := false } else i)) := by
  refine ⟨rfl, ?_, rfl, ?_⟩ <;> intro k
  · simp [mark_purchased, ensure_user_items, List.getElem?_map]
  · simp [unmark_purchased, ensure_user_items, List.getElem?_map]

/-! Concrete fixtures used by witnesses and counterexamples. -/

/-- A user row as the endpoints create it. -/
def userU : User := { id := 1, username := "u" }

/-- An active, unpurchased row for ("u", "x"). -/
def itemActiveX : Item := { id := 1, userId := 1, url := "x", source := "x", added_date := "2026-01-01" }

/-- An archived row for ("u", "x") with a stored title. -/
def itemArchivedX : Item :=
  { id := 2, userId := 1, url := "x", title := some "T", source := "x",
    added_date := "2026-01-01", purchased := true, archived := true }

/-- A state holding both an active and an archived row for ("u", "x"),
the duplicate shape the data model tolerates (active row first in rowid
order). -/
def dbDup : DB := { users := [userU], items := [itemActiveX, itemArchivedX], nextUserId := 2, nextItemId := 3 }

/-- A state holding only the archived row for ("u", "x"). -/
def dbArch : DB := { users := [userU], items := [itemArchivedX], nextUserId := 2, nextItemId := 3 }

/-- C6: explicit restore refuses with exists_active and changes no item
row whenever an active row matches the key — also when an archived row
matches too — and otherwise clears archived and purchased on every
matching row. -/
theorem restore_item_correct (db : DB) (u url : String) :
    ((∃ i ∈ (ensure_user db u).2.items,
        matchesKey (ensure_user db u).1 url i = true ∧ i.archived = false) →
      (restore_item db u url).1 = RestoreStatus.exists_active ∧
      (restore_item db u url).2.items = db.items) ∧
    ((∀ i ∈ (ensure_user db u).2.items,
        matchesKey (ensure_user db u).1 url i = true → i.archived = true) →
      (restore_item db u url).1 = RestoreStatus.restored ∧
      ∀ k : Nat, (restore_item db u url).2.items[k]? =
        (db.items[k]?).map (fun i =>
          if matchesKey (ensure_user db u).1 url i
          then { i with archived := false, purchased := false } else i)) := by
  constructor
  · rintro ⟨i, hi, hm, ha⟩
    have hany : ((ensure_user db u).2.items.any
        (fun i => matchesKey (ensure_user db u).1 url i && !i.archived)) = true := by
      rw [List.any_eq_true]
      exact ⟨i, hi, by simp [hm, ha]⟩
    constructor
    · simp only [restore_item]
      rw [hany]
      simp
    · simp only [restore_item]
      rw [hany]
      simp [ensure_user_items]
  · intro hall
    have hany : ((ensure_user db u).2.items.any
        (fun i => matchesKey (ensure_user db u).1 url i && !i.archived)) = false := by
      rw [List.any_eq_false]
      intro i hi
      cases hm : matchesKey (ensure_user db u).1 url i with
      | false => simp [hm]
      | true => simp [hm, hall i hi hm]
    constructor
    · simp only [restore_item]
      rw [hany]
      simp
    · intro k
      simp only [restore_item]
      rw [hany]
      simp [ensure_user_items, List.getElem?_map]

/-- Witness for C6: both branches of restore_item_correct at concrete
states — refusal on the active+archived duplicate state, restoration on
the archived-only state. -/
theorem restore_item_correct_witness :
    ((restore_item dbDup "u" "x").1 = RestoreStatus.exists_active ∧
     (restore_item dbDup "u" "x").2.items = dbDup.items) ∧
    ((restore_item dbArch "u" "x").1 = RestoreStatus.restored ∧
     ∀ k : Nat, (restore_item dbArch "u" "x").2.items[k]? =
       (dbArch.items[k]?).map (fun i =>
         if matchesKey (ensure_user dbArch "u").1 "x" i
         then { i with archived := false, purchased := false } else i)) :=
  ⟨(restore_item_correct dbDup "u" "x").1
     ⟨itemActiveX, by simp [dbDup, ensure_user, findUser, userU], by constructor <;> rfl⟩,
   (restore_item_correct dbArch "u" "x").2
     (by intro i hi _
         simp [dbArch, ensure_user, findUser, userU] at hi
         subst hi
         rfl)⟩

/-- After a creating lookup, the user is findable and carries the id
the lookup returned. -/
theorem findUser_ensure (db : DB) (u : String) :
    ∃ w : User, findUser (ensure_user db u).2 u = some w ∧ w.id = (ensure_user db u).1 := by
  cases h : findUser db u with
  | some v => exact ⟨v, by simp [ensure_user, h], by simp [ensure_user, h]⟩
  | none =>
    refine ⟨⟨db.nextUserId, u, none⟩, ?_, by simp [ensure_user, h, createUser]⟩
    have h2 : List.find? (fun x => x.username == u) db.users = none := h
    simp [ensure_user, h, createUser, findUser, h2]

/-- add_item never changes the users table beyond its creating user
lookup. -/
theorem add_item_users (db : DB) (u url : String) (m : Meta) (nl : String → String)
    (d : String) (hurl : url ≠ "") :
    (add_item db u url m nl d).db.users = (ensure_user db u).2.users := by
  simp only [add_item]
  rw [if_neg (by simp [hurl])]
  cases hh : (findItems (ensure_user db u).2 (ensure_user db u).1 url).head? with
  | none => simp
  | some r => cases hr : r.archived <;> simp [hr]

/-- C1 counterexample: in the duplicate state dbDup an archived row
(itemArchivedX) matches ("u", "x"), yet add reports exists, restores
nothing and leaves the state unchanged, because the fetchone duplicate
check only consults the first matching row, which is active. -/
theorem add_item_any_archived_counterexample :
    (dbDup.items.any (fun i => matchesKey 1 "x" i && i.archived)) = true ∧
    (add_item dbDup "u" "x" fetchFailureMeta (fun _ => "x") "2026-02-02").status
      = AddStatus.exists_ ∧
    (add_item dbDup "u" "x" fetchFailureMeta (fun _ => "x") "2026-02-02").db.items
      = dbDup.items ∧
    (add_item dbDup "u" "x" fetchFailureMeta (fun _ => "x") "2026-02-02").fetched = false :=
  ⟨rfl, rfl, rfl, rfl⟩

/-- C1 (amended): the first row matching (user, url) in rowid order
decides add.  If that row is archived, it alone is restored in place
(archived=false, purchased=false, added_date refreshed), no fetch
happens and the reported title is the row's stored title; if that row
is active, add reports exists and mutates nothing — in both cases
regardless of what the other matching rows are. -/
theorem add_item_first_match_decides (db : DB) (u url : String) (meta : Meta)
    (nl : String → String) (today : String) (r : Item)
    (hurl : url ≠ "")
    (hnd : (db.items.map Item.id).Nodup)
    (hhead : (findItems (ensure_user db u).2 (ensure_user db u).1 url).head? = some r) :
    (r.archived = true →
       (add_item db u url meta nl today).status = AddStatus.restored r.title ∧
       (add_item db u url meta nl today).db.items =
         db.items.map (fun i => if i.id == r.id then
           { i with archived := false, purchased := false, added_date := today } else i) ∧
       (add_item db u url meta nl today).db.users = (ensure_user db u).2.users ∧
       (add_item db u url meta nl today).fetched = false) ∧
    (r.archived = false →
       (add_item db u url meta nl today).status = AddStatus.exists_ ∧
       (add_item db u url meta nl today).db = (ensure_user db u).2 ∧
       (add_item db u url meta nl today).fetched = false) := by
  have hr_mem : r ∈ db.items := by
    have h1 := List.mem_of_mem_head? hhead
    simp only [findItems] at h1
    have h2 := (List.mem_filter.mp h1).1
    rwa [ensure_user_items] at h2
  constructor
  · intro harch
    have hfind : (db.items.map (fun i => if i.id == r.id then
          { i with archived := false, purchased := false, added_date := today } else i)).find?
        (fun i => i.id == r.id)
        = some { r with archived := false, purchased := false, added_date := today } :=
      find?_map_update r
        (fun i => { i with archived := false, purchased := false, added_date := today })
        rfl db.items hr_mem hnd
    have hstep : add_item db u url meta nl today =
        ⟨AddStatus.restored r.title,
         { (ensure_user db u).2 with items := db.items.map (fun i => if i.id == r.id then
             { i with archived := false, purchased := false, added_date := today } else i) },
         false⟩ := by
      simp only [add_item]
      rw [if_neg (by simp [hurl]), hhead]
      simp only []
      rw [if_pos harch, ensure_user_items, hfind]
    rw [hstep]
    exact ⟨rfl, rfl, rfl, rfl⟩
  · intro harch
    have hstep : add_item db u url meta nl today =
        ⟨AddStatus.exists_, (ensure_user db u).2, false⟩ := by
      simp only [add_item]
      rw [if_neg (by simp [hurl]), hhead]
      simp only []
      rw [if_neg (by simp [harch])]
    rw [hstep]
    exact ⟨rfl, rfl, rfl⟩

/-- Witness for C1's amended theorem: on the archived-only state dbArch
the first matching row is the archived one, so add restores it in place
with its stored title and no fetch. -/
theorem add_item_first_match_decides_witness :
    (add_item dbArch "u" "x" fetchFailureMeta (fun _ => "x") "2026-02-02").status
      = AddStatus.restored itemArchivedX.title ∧
    (add_item dbArch "u" "x" fetchFailureMeta (fun _ => "x") "2026-02-02").db.items =
      dbArch.items.map (fun i => if i.id == itemArchivedX.id then
        { i with archived := false, purchased := false, added_date := "2026-02-02" } else i) ∧
    (add_item dbArch "u" "x" fetchFailureMeta (fun _ => "x") "2026-02-02").db.users
      = (ensure_user dbArch "u").2.users ∧
    (add_item dbArch "u" "x" fetchFailureMeta (fun _ => "x") "2026-02-02").fetched = false :=
  (add_item_first_match_decides dbArch "u" "x" fetchFailureMeta (fun _ => "x") "2026-02-02"
    itemArchivedX (by decide) (by decide) rfl).1 rfl

/-- A state with the user "u" and no items. -/
def dbU : DB := { users := [userU], nextUserId := 2 }

/-- A fetch result with a title, as a successful fetch would produce. -/
def metaT : Meta := { title := some "T", price := some (.str "9.99") }

/-- When the first matching row is active, add answers exists and
leaves the state of the creating lookup untouched. -/
theorem add_item_exists_case (db : DB) (u url : String) (m : Meta) (nl : String → String)
    (d : String) (r : Item) (hurl : url ≠ "")
    (hhead : (findItems (ensure_user db u).2 (ensure_user db u).1 url).head? = some r)
    (harch : r.archived = false) :
    add_item db u url m nl d = ⟨AddStatus.exists_, (ensure_user db u).2, false⟩ := by
  simp only [add_item]
  rw [if_neg (by simp [hurl]), hhead]
  simp only []
  rw [if_neg (by simp [harch])]

/-- C5: when no row matches (user, url), add reports added and appends
one row; an immediately repeated add with the same key then reports
exists, performs no second fetch, and leaves the state exactly as after
the first add — no duplicate row, no mutation. -/
theorem add_item_idempotent (db : DB) (u url : String) (m m2 : Meta)
    (nl nl2 : String → String) (d d2 : String)
    (hurl : url ≠ "")
    (hnone : findItems (ensure_user db u).2 (ensure_user db u).1 url = []) :
    (add_item db u url m nl d).status = AddStatus.added m.title ∧
    (add_item db u url m nl d).fetched = true ∧
    (add_item (add_item db u url m nl d).db u url m2 nl2 d2).status = AddStatus.exists_ ∧
    (add_item (add_item db u url m nl d).db u url m2 nl2 d2).db
      = (add_item db u url m nl d).db ∧
    (add_item (add_item db u url m nl d).db u url m2 nl2 d2).fetched = false := by
  have hhead : (findItems (ensure_user db u).2 (ensure_user db u).1 url).head? = none := by
    rw [hnone]
    rfl
  have h1 : add_item db u url m nl d =
      ⟨AddStatus.added m.title,
       { (ensure_user db u).2 with
           items := (ensure_user db u).2.items ++
             [{ id := (ensure_user db u).2.nextItemId, userId := (ensure_user db u).1,
                url := url, title := m.title, description := m.description,
                image := m.image, price := m.price, source := nl url, added_date := d,
                purchased := false, archived := false }],
           nextItemId := (ensure_user db u).2.nextItemId + 1 },
       true⟩ := by
    simp only [add_item]
    rw [if_neg (by simp [hurl]), hhead]
  obtain ⟨w, hw, hwid⟩ := findUser_ensure db u
  have hfu : findUser (add_item db u url m nl d).db u = some w := by
    rw [h1]
    exact hw
  have hens2 : ensure_user (add_item db u url m nl d).db u
      = (w.id, (add_item db u url m nl d).db) := by
    simp [ensure_user, hfu]
  have hhead2 : (findItems (add_item db u url m nl d).db w.id url).head? =
      some { id := (ensure_user db u).2.nextItemId, userId := (ensure_user db u).1,
             url := url, title := m.title, description := m.description,
             image := m.image, price := m.price, source := nl url, added_date := d,
             purchased := false, archived := false } := by
    rw [h1]
    simp only [findItems]
    rw [List.filter_append]
    have hl : List.filter (matchesKey w.id url) (ensure_user db u).2.items = [] := by
      rw [hwid]
      exact hnone
    rw [hl]
    have hm : matchesKey w.id url
        { id := (ensure_user db u).2.nextItemId, userId := (ensure_user db u).1,
          url := url, title := m.title, description := m.description,
          image := m.image, price := m.price, source := nl url, added_date := d,
          purchased := false, archived := false } = true := by
      simp [matchesKey, hwid]
    simp [hm]
  have hhead3 : (findItems (ensure_user (add_item db u url m nl d).db u).2
      (ensure_user (add_item db u url m nl d).db u).1 url).head? =
      some { id := (ensure_user db u).2.nextItemId, userId := (ensure_user db u).1,
             url := url, title := m.title, description := m.description,
             image := m.image, price := m.price, source := nl url, added_date := d,
             purchased := false, archived := false } := by
    rw [hens2]
    exact hhead2
  have h2 := add_item_exists_case (add_item db u url m nl d).db u url m2 nl2 d2
    _ hurl hhead3 rfl
  exact ⟨by rw [h1], by rw [h1], by rw [h2], by rw [h2, hens2], by rw [h2]⟩

/-- Witness for C5 at the concrete state dbU with url "x": the first
add reports added, the second reports exists with the state and item
list unchanged and no second fetch. -/
theorem add_item_idempotent_witness :
    (add_item dbU "u" "x" metaT (fun _ => "x") "2026-01-01").status
      = AddStatus.added metaT.title ∧
    (add_item dbU "u" "x" metaT (fun _ => "x") "2026-01-01").fetched = true ∧
    (add_item (add_item dbU "u" "x" metaT (fun _ => "x") "2026-01-01").db
       "u" "x" metaT (fun _ => "x") "2026-01-02").status = AddStatus.exists_ ∧
    (add_item (add_item dbU "u" "x" metaT (fun _ => "x") "2026-01-01").db
       "u" "x" metaT (fun _ => "x") "2026-01-02").db
      = (add_item dbU "u" "x" metaT (fun _ => "x") "2026-01-01").db ∧
    (add_item (add_item dbU "u" "x" metaT (fun _ => "x") "2026-01-01").db
       "u" "x" metaT (fun _ => "x") "2026-01-02").fetched = false :=
  add_item_idempotent dbU "u" "x" metaT metaT (fun _ => "x") (fun _ => "x")
    "2026-01-01" "2026-01-02" (by decide) rfl

/-- C7: with no matching row and a failed fetch, add still succeeds:
one row is appended with title, description, image and price all
absent, source the url's host, purchased and archived false, and the
reported status is added (title absent), not an error. -/
theorem add_item_fetch_failure (db : DB) (u url : String) (nl : String → String) (d : String)
    (hurl : url ≠ "")
    (hnone : findItems (ensure_user db u).2 (ensure_user db u).1 url = []) :
    (add_item db u url fetchFailureMeta nl d).status = AddStatus.added none ∧
    (add_item db u url fetchFailureMeta nl d).fetched = true ∧
    (add_item db u url fetchFailureMeta nl d).db.items =
      (ensure_user db u).2.items ++
        [{ id := (ensure_user db u).2.nextItemId, userId := (ensure_user db u).1, url := url,
           title := none, description := none, image := none, price := none,
           source := nl url, added_date := d, purchased := false, archived := false }] := by
  have hhead : (findItems (ensure_user db u).2 (ensure_user db u).1 url).head? = none := by
    rw [hnone]
    rfl
  have h1 : add_item db u url fetchFailureMeta nl d =
      ⟨AddStatus.added none,
       { (ensure_user db u).2 with
           items := (ensure_user db u).2.items ++
             [{ id := (ensure_user db u).2.nextItemId, userId := (ensure_user db u).1,
                url := url, title := none, description := none, image := none, price := none,
                source := nl url, added_date := d, purchased := false, archived := false }],
           nextItemId := (ensure_user db u).2.nextItemId + 1 },
       true⟩ := by
    simp only [add_item]
    rw [if_neg (by simp [hurl]), hhead]
    rfl
  exact ⟨by rw [h1], by rw [h1], by rw [h1]⟩

/-- Witness for C7 at the concrete state dbU: a failed fetch still
yields an added row with every metadata field absent. -/
theorem add_item_fetch_failure_witness :
    (add_item dbU "u" "x" fetchFailureMeta (fun _ => "x") "2026-01-01").status
      = AddStatus.added none ∧
    (add_item dbU "u" "x" fetchFailureMeta (fun _ => "x") "2026-01-01").fetched = true ∧
    (add_item dbU "u" "x" fetchFailureMeta (fun _ => "x") "2026-01-01").db.items =
      (ensure_user dbU "u").2.items ++
        [{ id := (ensure_user dbU "u").2.nextItemId, userId := (ensure_user dbU "u").1,
           url := "x", title := none, description := none, image := none, price := none,
           source := "x", added_date := "2026-01-01", purchased := false, archived := false }] :=
  add_item_fetch_failure dbU "u" "x" (fun _ => "x") "2026-01-01" (by decide) rfl

/-- The empty state: no users, no items. -/
def dbE : DB := {}

/-- C10: every per-user API operation except get_user_info auto-creates
a missing user row — both listings, add, delete, mark and unmark
purchased, archive_purchased, restore and set_external_link — while
get_user_info answers not-found (none) and changes nothing. -/
theorem user_autocreation (db : DB) (u url : String) (m : Meta) (nl : String → String)
    (d : String) (link : Option String)
    (habs : findUser db u = none) (hurl : url ≠ "") :
    ((get_wishlist db u).2.users.any (fun x => x.username == u)) = true ∧
    ((get_archive_items db u).2.users.any (fun x => x.username == u)) = true ∧
    ((add_item db u url m nl d).db.users.any (fun x => x.username == u)) = true ∧
    ((delete_item db u url).users.any (fun x => x.username == u)) = true ∧
    ((mark_purchased db u url).users.any (fun x => x.username == u)) = true ∧
    ((unmark_purchased db u url).users.any (fun x => x.username == u)) = true ∧
    ((archive_purchased db u).2.users.any (fun x => x.username == u)) = true ∧
    ((restore_item db u url).2.users.any (fun x => x.username == u)) = true ∧
    ((set_external_link db u link).users.any (fun x => x.username == u)) = true ∧
    (get_user_info db u).1 = none ∧ (get_user_info db u).2 = db := by
  have hbase := ensure_user_has_username db u
  refine ⟨hbase, hbase, ?_, hbase, hbase, hbase, hbase, ?_, ?_, ?_, ?_⟩
  · rw [add_item_users db u url m nl d hurl]
    exact hbase
  · have hrest : (restore_item db u url).2.users = (ensure_user db u).2.users := by
      simp only [restore_item]
      split <;> rfl
    rw [hrest]
    exact hbase
  · have hset : (set_external_link db u link).users.any (fun x => x.username == u)
        = (ensure_user db u).2.users.any (fun x => x.username == u) := by
      simp only [set_external_link]
      rw [List.any_map]
      congr 1
      funext x
      by_cases h : (x.id == (ensure_user db u).1) = true
      · simp [Function.comp, h]
      · simp [Function.comp, h]
    rw [hset]
    exact hbase
  · simp [get_user_info, get_user_id, habs]
  · simp [get_user_info, get_user_id, habs]

/-- Witness for C10 at the empty state with the unknown user "u". -/
theorem user_autocreation_witness :
    ((get_wishlist dbE "u").2.users.any (fun x => x.username == "u")) = true ∧
    ((get_archive_items dbE "u").2.users.any (fun x => x.username == "u")) = true ∧
    ((add_item dbE "u" "x" fetchFailureMeta (fun _ => "x") "2026-01-01").db.users.any
       (fun x => x.username == "u")) = true ∧
    ((delete_item dbE "u" "x").users.any (fun x => x.username == "u")) = true ∧
    ((mark_purchased dbE "u" "x").users.any (fun x => x.username == "u")) = true ∧
    ((unmark_purchased dbE "u" "x").users.any (fun x => x.username == "u")) = true ∧
    ((archive_purchased dbE "u").2.users.any (fun x => x.username == "u")) = true ∧
    ((restore_item dbE "u" "x").2.users.any (fun x => x.username == "u")) = true ∧
    ((set_external_link dbE "u" (some "L")).users.any (fun x => x.username == "u")) = true ∧
    (get_user_info dbE "u").1 = none ∧ (get_user_info dbE "u").2 = dbE :=
  user_autocreation dbE "u" "x" fetchFailureMeta (fun _ => "x") "2026-01-01" (some "L")
    rfl (by decide)

/-- A document whose og:title meta element has no content attribute. -/
def docOgTitleNoContent : Doc := { metas := [{ property := some "og:title" }] }

/-- A document whose title element is empty, so its string is None. -/
def docEmptyTitle : Doc := { titleTag := some none }

/-- C3: the code violates the claimed totality of extraction: it raises
KeyError on a document whose og:title meta element lacks a content
attribute (tag["content"] on a missing attribute) and AttributeError on
a document with an empty title element (None.strip()), instead of
leaving the fields absent. -/
theorem extract_not_total :
    extract docOgTitleNoContent = .error .keyError ∧
    extract docEmptyTitle = .error .attrError :=
  ⟨rfl, rfl⟩

/-- A document with an empty-content product:price:amount element
followed by an og:price:amount element carrying "9.99". -/
def docEmptyThenPrice : Doc :=
  { metas := [{ property := some "product:price:amount", content := some "" },
              { property := some "og:price:amount", content := some "9.99" }] }

/-- C2 counterexample: docEmptyThenPrice has an og:price:amount element
with non-empty content "9.99" after a product:price:amount element with
empty content, so the claim resolves the price to "9.99"; the code
resolves no price at all, because the or-chain commits to the first
EXISTING tag and only then checks its content. -/
theorem price_tier1_counterexample :
    findMetaProp docEmptyThenPrice "og:price:amount"
      = some { property := some "og:price:amount", content := some "9.99" } ∧
    extractPrice docEmptyThenPrice = none :=
  ⟨rfl, rfl⟩

/-- C2 (amended): tier 1 selects the first meta element that exists in
the order product:price:amount, og:price:amount, microdata price; the
price resolves to that element's content only when the content is
present and non-empty, and otherwise tier 1 yields nothing and the
JSON-LD scan is consulted — later elements of the order are never
tried.  A tier-1 result takes precedence over JSON-LD prices. -/
theorem price_tier1_first_existing (doc : Doc) (t : MetaTag) :
    (findMetaProp doc "product:price:amount" = some t → price_tag doc = some t) ∧
    (findMetaProp doc "product:price:amount" = none →
       findMetaProp doc "og:price:amount" = some t → price_tag doc = some t) ∧
    (findMetaProp doc "product:price:amount" = none →
       findMetaProp doc "og:price:amount" = none →
       price_tag doc = findMetaItemprop doc "price") ∧
    (price_tag doc = some t →
       extractPrice doc =
         match t.content with
         | some c => if c == "" then scanBlocks none doc.scripts else some (.str c)
         | none => scanBlocks none doc.scripts) := by
  refine ⟨?_, ?_, ?_, ?_⟩
  · intro h
    simp [price_tag, h]
  · intro h1 h2
    simp [price_tag, h1, h2]
  · intro h1 h2
    simp [price_tag, h1, h2]
  · intro h
    simp only [extractPrice, tier1Price, h]
    cases hc : t.content with
    | none => simp [truthyOpt]
    | some c =>
      cases he : (c == "") with
      | true => simp [he, truthyOpt]
      | false => simp [he, truthyOpt, Json.truthy, bne]

/-- A document whose only price source is a meta tag with "19.99",
while a JSON-LD block offers "29.99". -/
def docMetaVsLd : Doc :=
  { metas := [{ property := some "product:price:amount", content := some "19.99" }],
    scripts := [some (.obj [("offers", .obj [("price", .str "29.99")])])] }

/-- Witness for C2's amended theorem: on docMetaVsLd the meta tag
exists first, so the price resolves to "19.99" and the JSON-LD price
"29.99" is ignored. -/
theorem price_tier1_first_existing_witness :
    price_tag docMetaVsLd
      = some { property := some "product:price:amount", itemprop := none,
               content := some "19.99" } ∧
    extractPrice docMetaVsLd = some (Json.str "19.99") :=
  ⟨(price_tier1_first_existing docMetaVsLd
      { property := some "product:price:amount", itemprop := none,
        content := some "19.99" }).1 rfl,
   (price_tier1_first_existing docMetaVsLd
      { property := some "product:price:amount", itemprop := none,
        content := some "19.99" }).2.2.2
     ((price_tier1_first_existing docMetaVsLd
        { property := some "product:price:amount", itemprop := none,
          content := some "19.99" }).1 rfl)⟩

/-- The document of the spec's @graph test: a single ld+json block
holding an object whose @graph array carries one offers object with
price "42.00". -/
def docGraph42 : Doc :=
  { scripts := [some (.obj [("@graph",
      .arr [.obj [("offers", .obj [("price", .str "42.00")])]])])] }

/-- C4: the JSON-LD scan behaves as specified: an unparseable block is
skipped and the scan continues; a parsed object with a @graph array
yields the array elements as candidates, otherwise the object itself is
the sole candidate; a candidate whose offers is a list takes the first
element's price while an object-valued offers gives its price directly,
the candidate loop stopping at the first non-empty (truthy) price; a
block that yields a truthy price without raising stops the block scan
with that price; whenever tier 1 resolves nothing the scan is what
prices the document; and the @graph example of the spec resolves to
"42.00". -/
theorem jsonld_scan_correct (p0 : Option Json) (rest : List (Option Json))
    (fs g : List (String × Json)) (xs os : List Json) (b : Json) (p : Option Json)
    (doc : Doc) :
    scanBlocks p0 (none :: rest) = scanBlocks p0 rest ∧
    (lookupField fs "@graph" = some (.arr xs) →
       blockStep p0 (.obj fs) = scanCandidates p0 xs) ∧
    (lookupField fs "@graph" = none →
       blockStep p0 (.obj fs) = scanCandidates p0 [.obj fs]) ∧
    (lookupField fs "offers" = some (.arr (.obj g :: os)) →
       scanCandidates p0 (.obj fs :: xs) =
         (if truthyOpt (lookupField g "price") then (lookupField g "price", false)
          else scanCandidates (lookupField g "price") xs)) ∧
    (lookupField fs "offers" = some (.obj g) →
       scanCandidates p0 (.obj fs :: xs) =
         (if truthyOpt (lookupField g "price") then (lookupField g "price", false)
          else scanCandidates (lookupField g "price") xs)) ∧
    (blockStep none b = (p, false) → truthyOpt p = true →
       scanBlocks none (some b :: rest) = p) ∧
    (tier1Price doc = none → extractPrice doc = scanBlocks none doc.scripts) ∧
    extractPrice docGraph42 = some (.str "42.00") := by
  refine ⟨rfl, ?_, ?_, ?_, ?_, ?_, ?_, rfl⟩
  · intro h
    simp [blockStep, h, graphIter]
  · intro h
    simp [blockStep, h]
  · intro h
    simp [scanCandidates, h]
  · intro h
    simp [scanCandidates, h]
  · intro h ht
    simp only [scanBlocks]
    rw [h]
    simp [ht]
  · intro h
    simp [extractPrice, h, truthyOpt]

/-- Witness for C4: each hypothesis-bearing part of jsonld_scan_correct
applied at concrete blocks. -/
theorem jsonld_scan_correct_witness :
    blockStep none (.obj [("@graph", Json.arr [])]) = scanCandidates none [] ∧
    blockStep none (.obj [("offers", Json.obj [("price", Json.str "5")])])
      = scanCandidates none [.obj [("offers", Json.obj [("price", Json.str "5")])]] ∧
    scanCandidates none [.obj [("offers", Json.arr [Json.obj [("price", Json.str "7")]])]] =
      (if truthyOpt (lookupField [("price", Json.str "7")] "price")
       then (lookupField [("price", Json.str "7")] "price", false)
       else scanCandidates (lookupField [("price", Json.str "7")] "price") []) ∧
    scanCandidates none [.obj [("offers", Json.obj [("price", Json.str "8")])]] =
      (if truthyOpt (lookupField [("price", Json.str "8")] "price")
       then (lookupField [("price", Json.str "8")] "price", false)
       else scanCandidates (lookupField [("price", Json.str "8")] "price") []) ∧
    scanBlocks none [some (.obj [("offers", Json.obj [("price", Json.str "9")])])]
      = some (Json.str "9") ∧
    extractPrice docGraph42 = scanBlocks none docGraph42.scripts :=
  ⟨(jsonld_scan_correct none [] [("@graph", Json.arr [])] [] [] [] Json.null none
      docGraph42).2.1 rfl,
   (jsonld_scan_correct none [] [("offers", Json.obj [("price", Json.str "5")])] [] [] []
      Json.null none docGraph42).2.2.1 rfl,
   (jsonld_scan_correct none [] [("offers", Json.arr [Json.obj [("price", Json.str "7")]])]
      [("price", Json.str "7")] [] [] Json.null none docGraph42).2.2.2.1 rfl,
   (jsonld_scan_correct none [] [("offers", Json.obj [("price", Json.str "8")])]
      [("price", Json.str "8")] [] [] Json.null none docGraph42).2.2.2.2.1 rfl,
   (jsonld_scan_correct none [] [] [] [] []
      (.obj [("offers", Json.obj [("price", Json.str "9")])]) (some (Json.str "9"))
      docGraph42).2.2.2.2.2.1 rfl rfl,
   (jsonld_scan_correct none [] [] [] [] [] Json.null none docGraph42).2.2.2.2.2.2.1 rfl⟩

end Wishlist
